import Mathlib

/-!
Verification development for a Streamlit chat front-end over the Gemini API
(single source file, app script with helpers).

The embedding models Python values as an inductive type and translates the
source functions directly:
  - safe_get_text_from_resp : the defensive response-text extractor
  - append_history           : history append (a dict with role and text keys)
  - the send handler         : the top-level block guarded by the send button,
                               with streaming attempt, blocking fallback and
                               error sentinel commit
External effects (Streamlit UI calls, the actual network SDK) are modelled by
explicit parameters: the environment supplies the stream-initiation outcome,
the chunks the stream yields before possibly raising, and the blocking-call
outcome.  A trace records which generation calls were made and whether the
script halted early.
-/

namespace CoolLion

/-- A Python runtime value, as far as the response-handling code inspects one:
strings, None, integers, lists, dicts (string-keyed mappings accessed by
subscript) and generic objects (accessed by attribute). -/
inductive PyVal where
  | vnone : PyVal
  | vstr : String → PyVal
  | vint : Int → PyVal
  | vlist : List PyVal → PyVal
  | vdict : List (String × PyVal) → PyVal
  | vobj : List (String × PyVal) → PyVal

/-- Python truthiness for the modelled values: None, empty string, zero and
empty collections are falsy; generic objects are truthy. -/
def truthy : PyVal → Bool
  | .vnone => false
  | .vstr s => !(s == "")
  | .vint n => !(n == 0)
  | .vlist xs => !xs.isEmpty
  | .vdict es => !es.isEmpty
  | .vobj _ => true

/-- Python `a or b`: the first operand when truthy, otherwise the second. -/
def pyOr (a b : PyVal) : PyVal := if truthy a then a else b

/-- The subscript path `cands[0]["content"]["parts"][0]["text"]` attempted in
the dict branch of safe_get_text_from_resp; any failure along the way (wrong
shape, missing key, empty list) raises in Python, is caught, and is modelled
here as none. -/
def dictCandPath (cands : PyVal) : Option PyVal :=
  match cands with
  | .vlist (c₀ :: _) =>
    match c₀ with
    | .vdict d₁ =>
      match List.lookup "content" d₁ with
      | some (.vdict d₂) =>
        match List.lookup "parts" d₂ with
        | some (.vlist (p₀ :: _)) =>
          match p₀ with
          | .vdict d₃ => List.lookup "text" d₃
          | _ => none
        | _ => none
      | _ => none
    | _ => none
  | _ => none

/-- The attribute path `resp.candidates[0].content.parts[0].text` attempted in
the object branch of safe_get_text_from_resp; any failure is caught in Python
and modelled as none. -/
def objCandPath (cands : PyVal) : Option PyVal :=
  match cands with
  | .vlist (c₀ :: _) =>
    match c₀ with
    | .vobj a₁ =>
      match List.lookup "content" a₁ with
      | some (.vobj a₂) =>
        match List.lookup "parts" a₂ with
        | some (.vlist (p₀ :: _)) =>
          match p₀ with
          | .vobj a₃ => List.lookup "text" a₃
          | _ => none
        | _ => none
      | _ => none
    | _ => none
  | _ => none

/-- safe_get_text_from_resp: in source order it returns a string unchanged,
then for any object with a text attribute returns that attribute, then for a
dict tries the candidates subscript path (when the candidates value is truthy)
before falling back to `resp.get("text") or resp.get("delta") or ""`, then for
an object with a truthy candidates attribute tries the attribute path, and
finally returns the empty string.  The whole body is wrapped in a blanket
try/except returning the empty string, so the function is total. -/
def safe_get_text_from_resp (resp : PyVal) : PyVal :=
  match resp with
  | .vstr s => .vstr s
  | .vobj attrs =>
    match List.lookup "text" attrs with
    | some t => t
    | none =>
      match List.lookup "candidates" attrs with
      | some cands =>
        if truthy cands then
          match objCandPath cands with
          | some t => t
          | none => .vstr ""
        else .vstr ""
      | none => .vstr ""
  | .vdict es =>
    let fb := pyOr ((List.lookup "text" es).getD .vnone)
                (pyOr ((List.lookup "delta" es).getD .vnone) (.vstr ""))
    match List.lookup "candidates" es with
    | some cands =>
      if truthy cands then
        match dictCandPath cands with
        | some t => t
        | none => fb
      else fb
    | none => fb
  | _ => .vstr ""

/-- Whether a modelled Python value is a string. -/
def isStrVal : PyVal → Bool
  | .vstr _ => true
  | _ => false

/-- Python str.strip() with no argument: removes leading and trailing
whitespace characters. -/
def pyStrip (s : String) : String :=
  ⟨((s.data.dropWhile Char.isWhitespace).reverse.dropWhile
      Char.isWhitespace).reverse⟩

/-- A history entry exactly as the source stores it: the Python dict literal
with a role key and a text key and nothing else. -/
def mkMsg (role text : String) : List (String × String) :=
  [("role", role), ("text", text)]

/-- The session history: the list of entry dicts held in session state. -/
abbrev History := List (List (String × String))

/-- append_history: appends the entry dict to the session history. -/
def append_history (role text : String) (h : History) : History :=
  h ++ [mkMsg role text]

/-- The fixed assistant text committed by the outer except branch of the send
handler. -/
def sentinelText : String := "[Generation failed — see error above]"

/-- The delta the streaming loop computes for one chunk:
`safe_get_text_from_resp(chunk) or ""`. -/
def deltaOf (c : PyVal) : PyVal :=
  pyOr (safe_get_text_from_resp c) (.vstr "")

/-- The string content of a delta; a non-string delta contributes nothing
(the loop raises on it instead of appending, see streamLoop). -/
def deltaStr (c : PyVal) : String :=
  match deltaOf c with
  | .vstr s => s
  | _ => ""

/-- Concatenation of the deltas of a chunk list, d1 ++ d2 ++ ... ++ dn. -/
def concatDeltas : List PyVal → String
  | [] => ""
  | c :: cs => deltaStr c ++ concatDeltas cs

/-- The streaming aggregation loop body: for each chunk compute the delta;
when it is truthy append it to the accumulator with `streamed_text += delta`,
which raises a TypeError when the delta is a truthy non-string (modelled as
an error result); a falsy delta is skipped. -/
def streamLoop : List PyVal → String → Except Unit String
  | [], acc => .ok acc
  | c :: cs, acc =>
    let d := deltaOf c
    if truthy d then
      match d with
      | .vstr s => streamLoop cs (acc ++ s)
      | _ => .error ()
    else streamLoop cs acc

/-- Outcome of one call of the stream function: it may return an iterator
(modelled by the finite list of chunks it will yield, and whether pulling past
them raises mid-stream), raise a TypeError (caught: the handler retries with
positional arguments), or raise any other exception (re-raised). -/
inductive InitAttempt where
  | ok : List PyVal → Bool → InitAttempt
  | typeError : InitAttempt
  | raises : InitAttempt

/-- The environment behaviour of stream initiation: the outcome of the first
(keyword-argument) call, and of the positional retry used only after a
TypeError; a none retry means the retry itself raises. -/
structure StreamBehavior where
  first : InitAttempt
  second : Option (List PyVal × Bool)

/-- Net result of the initiation code: either a stream iterator was obtained
(chunks plus the mid-stream raise flag) or an exception escaped to the outer
except branch. -/
inductive StreamRun where
  | got : List PyVal → Bool → StreamRun
  | initFailed : StreamRun

/-- The try/except TypeError/except ladder around the stream call: a TypeError
triggers exactly one positional retry, any other exception is re-raised, and a
failing retry also escapes. -/
def runInit (sb : StreamBehavior) : StreamRun :=
  match sb.first with
  | .ok cs m => .got cs m
  | .raises => .initFailed
  | .typeError =>
    match sb.second with
    | some (cs, m) => .got cs m
    | none => .initFailed

/-- Outcome of the blocking generate_content call: a response value or an
exception carrying a description. -/
inductive BlockResult where
  | ok : PyVal → BlockResult
  | raises : String → BlockResult

/-- The configuration found by the handler: whether the send button fired, the
text area content, whether init_client succeeds, the streaming toggle, and
whether a streaming method was found on the client. -/
structure Config where
  sendBtn : Bool
  userInput : String
  initOk : Bool
  useStreaming : Bool
  streamFnPresent : Bool

/-- Observable calls the handler makes: the number of stream-function calls,
the number of blocking generate_content calls, whether the chunk loop was
entered, and whether the script halted at st.stop. -/
structure Trace where
  streamCalls : Nat
  blockingCalls : Nat
  aggregatorEntered : Bool
  halted : Bool
deriving Repr, DecidableEq

/-- The trace of a run that made no generation call and did not halt. -/
def noTrace : Trace := ⟨0, 0, false, false⟩

/-- How many times the stream function is invoked for a given behaviour
(the TypeError path invokes it a second time). -/
def streamCallsOf (sb : StreamBehavior) : Nat :=
  match sb.first with
  | .typeError => 2
  | _ => 1

/-- `getattr(response, "text", "")` on the blocking response. -/
def getattrText : PyVal → PyVal
  | .vobj attrs => (List.lookup "text" attrs).getD (.vstr "")
  | _ => .vstr ""

/-- The send handler, lines 106-193 of the source: if the button fired and the
stripped input is non-empty, append the user message; on init_client failure
halt (st.stop) with no assistant entry; with streaming selected and a stream
function present, run initiation, and commit the trimmed accumulated text on a
clean finish, or the error sentinel when initiation escaped, the loop raised,
or the stream raised mid-stream; otherwise make one blocking call and commit
the trimmed normalized text, or the sentinel when the call or the strip on a
non-string result raises. -/
def handle (cfg : Config) (sb : StreamBehavior) (bb : BlockResult)
    (h : History) : History × Trace :=
  if cfg.sendBtn && !(pyStrip cfg.userInput == "") then
    let h1 := append_history "user" cfg.userInput h
    if !cfg.initOk then
      (h1, { noTrace with halted := true })
    else if cfg.useStreaming && cfg.streamFnPresent then
      match runInit sb with
      | .initFailed =>
        (append_history "assistant" sentinelText h1,
         ⟨streamCallsOf sb, 0, false, false⟩)
      | .got chunks midRaise =>
        let tr : Trace := ⟨streamCallsOf sb, 0, true, false⟩
        match streamLoop chunks "" with
        | .error _ => (append_history "assistant" sentinelText h1, tr)
        | .ok acc =>
          if midRaise then (append_history "assistant" sentinelText h1, tr)
          else (append_history "assistant" (pyStrip acc) h1, tr)
    else
      let tr : Trace := ⟨0, 1, false, false⟩
      match bb with
      | .raises _ => (append_history "assistant" sentinelText h1, tr)
      | .ok resp =>
        match pyOr (safe_get_text_from_resp resp)
                (pyOr (getattrText resp) (.vstr "")) with
        | .vstr s => (append_history "assistant" (pyStrip s) h1, tr)
        | _ => (append_history "assistant" sentinelText h1, tr)
  else (h, noTrace)

/-- Whether the character list needle occurs contiguously inside the hay. -/
def containsSub (hay needle : List Char) : Bool :=
  match hay with
  | [] => needle.isEmpty
  | _ :: t => needle.isPrefixOf hay || containsSub t needle

/-- Whether the string sub occurs as a contiguous substring of s. -/
def strContains (s sub : String) : Bool :=
  containsSub s.toList sub.toList

/-- The values stored in a text-bearing field of a response value: the text
attribute and candidate-path result for objects, the candidate-path result and
the text and delta keys for dicts.  Every non-string result of
safe_get_text_from_resp is one of these stored values, returned as-is. -/
def fieldVals : PyVal → List PyVal
  | .vobj attrs =>
    (List.lookup "text" attrs).toList ++
      ((List.lookup "candidates" attrs).toList.flatMap fun c =>
        (objCandPath c).toList)
  | .vdict es =>
    ((List.lookup "candidates" es).toList.flatMap fun c =>
      (dictCandPath c).toList) ++
      (List.lookup "text" es).toList ++ (List.lookup "delta" es).toList
  | _ => []

/-- Modelled from the spec: the Message record of the data model with role,
text and timestamp fields.  The repository variant in src stores no timestamp
and ships no export functions; the ExportSerializer component is absent from
src, so it is modelled from the spec here. -/
structure SpecMessage where
  role : String
  text : String
  time : String

/-- Modelled from the spec: the one-line rendering of a message used by the
TXT export, bracketed timestamp, capitalised role, then the text. -/
def fmtLine (m : SpecMessage) : String :=
  "[" ++ m.time ++ "] " ++ m.role ++ ": " ++ m.text

/-- Modelled from the spec: toText renders one line per message, messages
separated by a blank line, in history order. -/
def toText : List SpecMessage → String
  | [] => ""
  | [m] => fmtLine m
  | m :: ms => fmtLine m ++ "\n\n" ++ toText ms

/-- Modelled from the spec: toJson renders the history as an order-preserving
array of objects with string fields role, text and time; the array is modelled
structurally (one key-value list per message) so that field preservation is
exact, non-ASCII text included. -/
def toJson (h : List SpecMessage) : List (List (String × String)) :=
  h.map fun m => [("role", m.role), ("text", m.text), ("time", m.time)]

/-- Separator-prefixed concatenation: the tail part of a separated join. -/
def sepPre (s : String) : List String → String
  | [] => ""
  | a :: as => s ++ a ++ sepPre s as

end CoolLion

namespace CoolLion

@[simp] theorem truthy_vnone : truthy PyVal.vnone = false := rfl

theorem streamLoop_append (chunks : List PyVal) (acc : String)
    (hstr : ∀ c ∈ chunks, ∃ s, deltaOf c = .vstr s) :
    streamLoop chunks acc = .ok (acc ++ concatDeltas chunks) := by
  induction chunks generalizing acc with
  | nil => simp [streamLoop, concatDeltas]
  | cons c cs ih =>
    obtain ⟨s, hs⟩ := hstr c (List.mem_cons_self c cs)
    have htail : ∀ x ∈ cs, ∃ u, deltaOf x = .vstr u :=
      fun x hx => hstr x (List.mem_cons_of_mem c hx)
    by_cases hse : s = ""
    · subst hse
      simp [streamLoop, hs, truthy, concatDeltas, deltaStr, ih _ htail]
    · simp [streamLoop, hs, truthy, hse, concatDeltas, deltaStr, ih _ htail,
        String.append_assoc]

/-- Claim C10: a send whose input strips to the empty string leaves the
history untouched and makes no generation call of either kind. -/
theorem C10_blank_input_noop (cfg : Config) (sb : StreamBehavior)
    (bb : BlockResult) (h : History) (hblank : pyStrip cfg.userInput = "") :
    handle cfg sb bb h = (h, noTrace) := by
  unfold handle
  simp [hblank]

/-- Witness for C10 at a whitespace-only input. -/
theorem C10_blank_input_noop_witness :
    handle ⟨true, "   ", true, true, true⟩ ⟨.raises, none⟩ (.ok .vnone)
      [mkMsg "user" "z"] = ([mkMsg "user" "z"], noTrace) :=
  C10_blank_input_noop ⟨true, "   ", true, true, true⟩ ⟨.raises, none⟩
    (.ok .vnone) [mkMsg "user" "z"] (by decide)

/-- Claim C8: when the stream is obtained, yields its chunks and finishes
without raising, and every delta is a string, the committed assistant text is
the trimmed concatenation of the deltas (an empty result is committed as an
ordinary assistant message, not a sentinel). -/
theorem C8_stream_concat_trim (cfg : Config) (sb : StreamBehavior)
    (bb : BlockResult) (h : History) (chunks : List PyVal)
    (hb : cfg.sendBtn = true) (hne : pyStrip cfg.userInput ≠ "")
    (hinit : cfg.initOk = true) (hs : cfg.useStreaming = true)
    (hp : cfg.streamFnPresent = true)
    (hrun : runInit sb = .got chunks false)
    (hstr : ∀ c ∈ chunks, ∃ s, deltaOf c = .vstr s) :
    (handle cfg sb bb h).1 =
      h ++ [mkMsg "user" cfg.userInput,
            mkMsg "assistant" (pyStrip (concatDeltas chunks))] := by
  unfold handle
  simp [hb, hne, hinit, hs, hp, hrun, streamLoop_append chunks "" hstr,
    append_history]

/-- Witness for C8 on the chunk list yielding " A" then "B ". -/
theorem C8_stream_concat_trim_witness :
    (handle ⟨true, "x", true, true, true⟩
        ⟨.ok [.vstr " A", .vstr "B "] false, none⟩ (.ok .vnone) []).1 =
      [mkMsg "user" "x", mkMsg "assistant" "AB"] := by
  have hstr : ∀ c ∈ [PyVal.vstr " A", PyVal.vstr "B "],
      ∃ s, deltaOf c = .vstr s := by
    intro c hc
    simp only [List.mem_cons, List.not_mem_nil, or_false] at hc
    rcases hc with rfl | rfl
    · exact ⟨" A", rfl⟩
    · exact ⟨"B ", rfl⟩
  have h := C8_stream_concat_trim ⟨true, "x", true, true, true⟩
    ⟨.ok [.vstr " A", .vstr "B "] false, none⟩ (.ok .vnone) []
    [.vstr " A", .vstr "B "] rfl (by decide) rfl rfl rfl rfl hstr
  rw [h]
  rfl

/-- Claim C1, counterexample: the stream yields "A" and "B" and then raises;
the committed assistant text is the fixed error sentinel, not the partial
accumulation "AB". -/
theorem C1_counterexample :
    (handle ⟨true, "x", true, true, true⟩
        ⟨.ok [.vstr "A", .vstr "B"] true, none⟩ (.ok .vnone) []).1 =
      [mkMsg "user" "x", mkMsg "assistant" sentinelText] ∧
    sentinelText ≠ "AB" :=
  ⟨rfl, by decide⟩

/-- Claim C1, amended: when the stream raises mid-stream, the partial
accumulated text is discarded from the history and the fixed error sentinel is
committed as the assistant message instead. -/
theorem C1_midstream_sentinel (cfg : Config) (sb : StreamBehavior)
    (bb : BlockResult) (h : History) (chunks : List PyVal)
    (hb : cfg.sendBtn = true) (hne : pyStrip cfg.userInput ≠ "")
    (hinit : cfg.initOk = true) (hs : cfg.useStreaming = true)
    (hp : cfg.streamFnPresent = true)
    (hrun : runInit sb = .got chunks true) :
    (handle cfg sb bb h).1 =
      h ++ [mkMsg "user" cfg.userInput, mkMsg "assistant" sentinelText] := by
  unfold handle
  cases hl : streamLoop chunks "" with
  | error e => simp [hb, hne, hinit, hs, hp, hrun, hl, append_history]
  | ok acc => simp [hb, hne, hinit, hs, hp, hrun, hl, append_history]

/-- Witness for the amended C1. -/
theorem C1_midstream_sentinel_witness :
    (handle ⟨true, "x", true, true, true⟩
        ⟨.ok [.vstr "A", .vstr "B"] true, none⟩ (.ok .vnone)
        [mkMsg "user" "w"]).1 =
      [mkMsg "user" "w", mkMsg "user" "x", mkMsg "assistant" sentinelText] := by
  have h := C1_midstream_sentinel ⟨true, "x", true, true, true⟩
    ⟨.ok [.vstr "A", .vstr "B"] true, none⟩ (.ok .vnone)
    [mkMsg "user" "w"] [.vstr "A", .vstr "B"] rfl (by decide) rfl rfl rfl rfl
  rw [h]
  rfl

/-- Claim C2, counterexample: the stream function is present and its
invocation raises (a non-TypeError); no blocking call is made and the error
sentinel is committed, so there is no blocking fallback. -/
theorem C2_counterexample :
    (handle ⟨true, "x", true, true, true⟩ ⟨.raises, none⟩
        (.ok (.vstr "ok")) []).2.blockingCalls = 0 ∧
    (handle ⟨true, "x", true, true, true⟩ ⟨.raises, none⟩
        (.ok (.vstr "ok")) []).1 =
      [mkMsg "user" "x", mkMsg "assistant" sentinelText] :=
  ⟨rfl, rfl⟩

/-- Claim C2, amended: exactly one blocking call is made, with the stream
function never invoked and the chunk loop never entered, precisely when
streaming is disabled or no streaming method exists, and when that blocking
call returns a response whose normalized text is a string the trimmed
normalized text is committed as the assistant message; when a streaming
method is selected and initiation escapes (a non-TypeError, or a failing
positional retry after a TypeError), no blocking call is made and the error
sentinel is committed. -/
theorem C2_fallback_behaviour (cfg : Config) (sb : StreamBehavior)
    (bb : BlockResult) (h : History)
    (hb : cfg.sendBtn = true) (hne : pyStrip cfg.userInput ≠ "")
    (hinit : cfg.initOk = true) :
    ((cfg.useStreaming = false ∨ cfg.streamFnPresent = false) →
      (handle cfg sb bb h).2.blockingCalls = 1 ∧
      (handle cfg sb bb h).2.streamCalls = 0 ∧
      (handle cfg sb bb h).2.aggregatorEntered = false ∧
      (∀ resp s, bb = .ok resp →
        pyOr (safe_get_text_from_resp resp)
          (pyOr (getattrText resp) (.vstr "")) = .vstr s →
        (handle cfg sb bb h).1 =
          h ++ [mkMsg "user" cfg.userInput,
            mkMsg "assistant" (pyStrip s)])) ∧
    (cfg.useStreaming = true → cfg.streamFnPresent = true →
      runInit sb = .initFailed →
      (handle cfg sb bb h).2.blockingCalls = 0 ∧
      (handle cfg sb bb h).1 =
        h ++ [mkMsg "user" cfg.userInput, mkMsg "assistant" sentinelText]) := by
  constructor
  · intro hsel
    have hstream : (cfg.useStreaming && cfg.streamFnPresent) = false := by
      rcases hsel with h1 | h1 <;> simp [h1]
    have htr : (handle cfg sb bb h).2 = ⟨0, 1, false, false⟩ := by
      unfold handle
      cases bb with
      | raises d => simp [hb, hne, hinit, hstream]
      | ok resp =>
        cases hval : pyOr (safe_get_text_from_resp resp)
            (pyOr (getattrText resp) (.vstr "")) with
        | vstr s => simp [hb, hne, hinit, hstream, hval]
        | vnone => simp [hb, hne, hinit, hstream, hval]
        | vint n => simp [hb, hne, hinit, hstream, hval]
        | vlist xs => simp [hb, hne, hinit, hstream, hval]
        | vdict es => simp [hb, hne, hinit, hstream, hval]
        | vobj attrs => simp [hb, hne, hinit, hstream, hval]
    refine ⟨by rw [htr], by rw [htr], by rw [htr], ?_⟩
    intro resp s hbb hchain
    subst hbb
    unfold handle
    simp [hb, hne, hinit, hstream, hchain, append_history]
  · intro hs hp hrun
    unfold handle
    simp [hb, hne, hinit, hs, hp, hrun, append_history]

/-- Claim C3, counterexample: a dict exposing both a text key and a nested
candidate path; the extractor returns the nested text, not the direct field. -/
theorem C3_counterexample :
    safe_get_text_from_resp (.vdict [("text", .vstr "direct"),
      ("candidates", .vlist [.vdict [("content", .vdict [("parts",
        .vlist [.vdict [("text", .vstr "nested")]])])]])]) = .vstr "nested" ∧
    ¬ safe_get_text_from_resp (.vdict [("text", .vstr "direct"),
      ("candidates", .vlist [.vdict [("content", .vdict [("parts",
        .vlist [.vdict [("text", .vstr "nested")]])])]])]) = .vstr "direct" := by
  refine ⟨rfl, fun hc => ?_⟩
  have h2 : PyVal.vstr "nested" = PyVal.vstr "direct" := hc
  injection h2 with h3
  exact absurd h3 (by decide)

/-- Claim C3, amended: for attribute-bearing objects the direct text attribute
wins over the nested candidate path, but for dicts the nested candidate path
is tried first and wins over the text key whenever it yields a value. -/
theorem C3_priority (attrs es : List (String × PyVal)) (cands t u : PyVal)
    (hobj : List.lookup "text" attrs = some t)
    (hcand : List.lookup "candidates" es = some cands)
    (htr : truthy cands = true) (hpath : dictCandPath cands = some u) :
    safe_get_text_from_resp (.vobj attrs) = t ∧
    safe_get_text_from_resp (.vdict es) = u := by
  constructor
  · simp [safe_get_text_from_resp, hobj]
  · simp [safe_get_text_from_resp, hcand, htr, hpath]

/-- Witness for the amended C3. -/
theorem C3_priority_witness :
    safe_get_text_from_resp (.vobj [("text", .vstr "direct"),
      ("candidates", .vlist [.vobj []])]) = .vstr "direct" ∧
    safe_get_text_from_resp (.vdict [("text", .vstr "d"),
      ("candidates", .vlist [.vdict [("content", .vdict [("parts",
        .vlist [.vdict [("text", .vstr "n")]])])]])]) = .vstr "n" :=
  C3_priority [("text", .vstr "direct"), ("candidates", .vlist [.vobj []])]
    [("text", .vstr "d"),
      ("candidates", .vlist [.vdict [("content", .vdict [("parts",
        .vlist [.vdict [("text", .vstr "n")]])])]])]
    (.vlist [.vdict [("content", .vdict [("parts",
      .vlist [.vdict [("text", .vstr "n")]])])]])
    (.vstr "direct") (.vstr "n") rfl rfl rfl rfl

/-- Claim C4, counterexample: the blocking call raises with a description
containing "timeout"; the committed assistant message is the fixed sentinel,
which does not contain the substring "timeout". -/
theorem C4_counterexample :
    (handle ⟨true, "hello", true, false, true⟩ ⟨.raises, none⟩
        (.raises "ConnectionError: timeout") []).1 =
      [mkMsg "user" "hello", mkMsg "assistant" sentinelText] ∧
    strContains sentinelText "timeout" = false :=
  ⟨rfl, rfl⟩

/-- Claim C4, amended: when the blocking path is taken and the call raises,
the committed assistant message is the fixed sentinel (the error description
appears only in the transient UI slot, never in the history), and the history
grows by exactly the user entry and one assistant entry. -/
theorem C4_blocking_failure_sentinel (cfg : Config) (sb : StreamBehavior)
    (h : History) (desc : String)
    (hb : cfg.sendBtn = true) (hne : pyStrip cfg.userInput ≠ "")
    (hinit : cfg.initOk = true)
    (hsel : cfg.useStreaming = false ∨ cfg.streamFnPresent = false) :
    (handle cfg sb (.raises desc) h).1 =
      h ++ [mkMsg "user" cfg.userInput, mkMsg "assistant" sentinelText] ∧
    (handle cfg sb (.raises desc) h).1.length = h.length + 2 := by
  have hstream : (cfg.useStreaming && cfg.streamFnPresent) = false := by
    rcases hsel with h1 | h1 <;> simp [h1]
  constructor
  · unfold handle
    simp [hb, hne, hinit, hstream, append_history]
  · unfold handle
    simp [hb, hne, hinit, hstream, append_history]

/-- Witness for the amended C4. -/
theorem C4_blocking_failure_sentinel_witness :
    (handle ⟨true, "hello", true, false, true⟩ ⟨.raises, none⟩
        (.raises "ConnectionError: timeout") []).1 =
      [mkMsg "user" "hello", mkMsg "assistant" sentinelText] := by
  have h := C4_blocking_failure_sentinel ⟨true, "hello", true, false, true⟩
    ⟨.raises, none⟩ [] "ConnectionError: timeout" rfl (by decide) rfl
    (Or.inl rfl)
  simpa using h.1

/-- Claim C5, counterexample: when client initialization fails, the script
stops after appending only the user message; no assistant entry is committed,
so that failure path does drop the assistant turn. -/
theorem C5_counterexample :
    (handle ⟨true, "hi", false, true, true⟩ ⟨.raises, none⟩ (.ok .vnone)
        []).1 = [mkMsg "user" "hi"] ∧
    (handle ⟨true, "hi", false, true, true⟩ ⟨.raises, none⟩ (.ok .vnone)
        []).2.halted = true :=
  ⟨rfl, rfl⟩

/-- Claim C5, amended: provided client initialization succeeds, every send
with non-blank input appends exactly the user message followed by exactly one
assistant message (model text or sentinel) and the script never halts early;
on initialization failure it halts after appending only the user message. -/
theorem C5_commit_guarantee (cfg : Config) (sb : StreamBehavior)
    (bb : BlockResult) (h : History)
    (hb : cfg.sendBtn = true) (hne : pyStrip cfg.userInput ≠ "")
    (hinit : cfg.initOk = true) :
    ∃ t, (handle cfg sb bb h).1 =
        h ++ [mkMsg "user" cfg.userInput, mkMsg "assistant" t] ∧
      (handle cfg sb bb h).2.halted = false := by
  unfold handle
  cases hsel : cfg.useStreaming && cfg.streamFnPresent with
  | true =>
    cases hrun : runInit sb with
    | initFailed =>
      refine ⟨sentinelText, ?_, ?_⟩ <;>
        simp [hb, hne, hinit, hsel, hrun, append_history]
    | got chunks mid =>
      cases hloop : streamLoop chunks "" with
      | error e =>
        refine ⟨sentinelText, ?_, ?_⟩ <;>
          simp [hb, hne, hinit, hsel, hrun, hloop, append_history]
      | ok acc =>
        cases mid with
        | true =>
          refine ⟨sentinelText, ?_, ?_⟩ <;>
            simp [hb, hne, hinit, hsel, hrun, hloop, append_history]
        | false =>
          refine ⟨pyStrip acc, ?_, ?_⟩ <;>
            simp [hb, hne, hinit, hsel, hrun, hloop, append_history]
  | false =>
    cases bb with
    | raises d =>
      refine ⟨sentinelText, ?_, ?_⟩ <;>
        simp [hb, hne, hinit, hsel, append_history]
    | ok resp =>
      cases hval : pyOr (safe_get_text_from_resp resp)
          (pyOr (getattrText resp) (.vstr "")) with
      | vstr s =>
        refine ⟨pyStrip s, ?_, ?_⟩ <;>
          simp [hb, hne, hinit, hsel, hval, append_history]
      | vnone =>
        refine ⟨sentinelText, ?_, ?_⟩ <;>
          simp [hb, hne, hinit, hsel, hval, append_history]
      | vint n =>
        refine ⟨sentinelText, ?_, ?_⟩ <;>
          simp [hb, hne, hinit, hsel, hval, append_history]
      | vlist xs =>
        refine ⟨sentinelText, ?_, ?_⟩ <;>
          simp [hb, hne, hinit, hsel, hval, append_history]
      | vdict es =>
        refine ⟨sentinelText, ?_, ?_⟩ <;>
          simp [hb, hne, hinit, hsel, hval, append_history]
      | vobj attrs =>
        refine ⟨sentinelText, ?_, ?_⟩ <;>
          simp [hb, hne, hinit, hsel, hval, append_history]

/-- Witness for the amended C5. -/
theorem C5_commit_guarantee_witness :
    ∃ t, (handle ⟨true, "q", true, false, false⟩ ⟨.raises, none⟩
          (.raises "boom") []).1 =
        [mkMsg "user" "q", mkMsg "assistant" t] ∧
      (handle ⟨true, "q", true, false, false⟩ ⟨.raises, none⟩
          (.raises "boom") []).2.halted = false := by
  have h := C5_commit_guarantee ⟨true, "q", true, false, false⟩
    ⟨.raises, none⟩ (.raises "boom") [] rfl (by decide) rfl
  simpa using h

/-- Claim C6, counterexample: the entry appended for a user message carries
exactly a role key and a text key; it has no timestamp or time field at all,
so appended messages are not timestamped. -/
theorem C6_counterexample :
    append_history "user" "hi" [] = [[("role", "user"), ("text", "hi")]] ∧
    List.lookup "timestamp" (mkMsg "user" "hi") = none ∧
    List.lookup "time" (mkMsg "user" "hi") = none :=
  ⟨rfl, rfl, rfl⟩

/-- Claim C6, amended: append adds exactly one entry at the end carrying a
role key and a text key with the given values, and nothing else; in
particular no timestamp field exists on any entry. -/
theorem C6_entry_shape (role text : String) (h : History) :
    append_history role text h = h ++ [mkMsg role text] ∧
    (mkMsg role text).map Prod.fst = ["role", "text"] ∧
    List.lookup "role" (mkMsg role text) = some role ∧
    List.lookup "text" (mkMsg role text) = some text ∧
    List.lookup "timestamp" (mkMsg role text) = none :=
  ⟨rfl, rfl, rfl, rfl, rfl⟩

/-- Claim C7, counterexample: an object whose text attribute is None; the
extractor returns that attribute unchanged, so the result is not a string. -/
theorem C7_counterexample :
    isStrVal (safe_get_text_from_resp (.vobj [("text", .vnone)])) = false :=
  rfl

/-- Claim C7, amended: the extractor is a total function (the blanket
try/except makes it raise-free); plain strings are returned unchanged;
inputs matching no strategy yield the empty string; and every result is
either a string or the exact value stored in a text-bearing field of the
input, returned as-is (so a None text attribute yields None, not a string). -/
theorem C7_totality :
    (∀ s, safe_get_text_from_resp (.vstr s) = .vstr s) ∧
    (safe_get_text_from_resp .vnone = .vstr "" ∧
      (∀ n, safe_get_text_from_resp (.vint n) = .vstr "") ∧
      (∀ xs, safe_get_text_from_resp (.vlist xs) = .vstr "")) ∧
    (∀ v, (∃ s, safe_get_text_from_resp v = .vstr s) ∨
      safe_get_text_from_resp v ∈ fieldVals v) := by
  refine ⟨fun s => rfl, ⟨rfl, fun n => rfl, fun xs => rfl⟩, fun v => ?_⟩
  cases v with
  | vnone => exact Or.inl ⟨"", rfl⟩
  | vstr s => exact Or.inl ⟨s, rfl⟩
  | vint n => exact Or.inl ⟨"", rfl⟩
  | vlist xs => exact Or.inl ⟨"", rfl⟩
  | vobj attrs =>
    cases ht : List.lookup "text" attrs with
    | some t =>
      refine Or.inr ?_
      simp [safe_get_text_from_resp, fieldVals, ht]
    | none =>
      cases hcand : List.lookup "candidates" attrs with
      | none =>
        exact Or.inl ⟨"", by simp [safe_get_text_from_resp, ht, hcand]⟩
      | some cands =>
        cases htr : truthy cands with
        | false =>
          exact Or.inl ⟨"", by simp [safe_get_text_from_resp, ht, hcand, htr]⟩
        | true =>
          cases hpath : objCandPath cands with
          | none =>
            exact Or.inl ⟨"",
              by simp [safe_get_text_from_resp, ht, hcand, htr, hpath]⟩
          | some t =>
            refine Or.inr ?_
            simp [safe_get_text_from_resp, fieldVals, ht, hcand, htr, hpath]
  | vdict es =>
    have hfb : (∃ s, pyOr ((List.lookup "text" es).getD .vnone)
          (pyOr ((List.lookup "delta" es).getD .vnone) (.vstr "")) =
            .vstr s) ∨
        pyOr ((List.lookup "text" es).getD .vnone)
          (pyOr ((List.lookup "delta" es).getD .vnone) (.vstr "")) ∈
            fieldVals (.vdict es) := by
      cases ht : List.lookup "text" es with
      | some tv =>
        cases htr : truthy tv with
        | true =>
          refine Or.inr ?_
          simp [pyOr, ht, htr, fieldVals]
        | false =>
          cases hd : List.lookup "delta" es with
          | some dv =>
            cases hdtr : truthy dv with
            | true =>
              refine Or.inr ?_
              simp [pyOr, ht, htr, hd, hdtr, fieldVals]
            | false =>
              exact Or.inl ⟨"", by simp [pyOr, ht, htr, hd, hdtr]⟩
          | none =>
            exact Or.inl ⟨"", by simp [pyOr, ht, htr, hd]⟩
      | none =>
        cases hd : List.lookup "delta" es with
        | some dv =>
          cases hdtr : truthy dv with
          | true =>
            refine Or.inr ?_
            simp [pyOr, ht, hd, hdtr, fieldVals]
          | false =>
            exact Or.inl ⟨"", by simp [pyOr, ht, hd, hdtr]⟩
        | none =>
          exact Or.inl ⟨"", by simp [pyOr, ht, hd]⟩
    cases hcand : List.lookup "candidates" es with
    | none =>
      rcases hfb with ⟨s, hs⟩ | hmem
      · exact Or.inl ⟨s, by simpa [safe_get_text_from_resp, hcand] using hs⟩
      · refine Or.inr ?_
        have : safe_get_text_from_resp (.vdict es) =
            pyOr ((List.lookup "text" es).getD .vnone)
              (pyOr ((List.lookup "delta" es).getD .vnone) (.vstr "")) := by
          simp [safe_get_text_from_resp, hcand]
        rw [this]
        exact hmem
    | some cands =>
      cases htr : truthy cands with
      | false =>
        rcases hfb with ⟨s, hs⟩ | hmem
        · exact Or.inl ⟨s,
            by simpa [safe_get_text_from_resp, hcand, htr] using hs⟩
        · refine Or.inr ?_
          have : safe_get_text_from_resp (.vdict es) =
              pyOr ((List.lookup "text" es).getD .vnone)
                (pyOr ((List.lookup "delta" es).getD .vnone) (.vstr "")) := by
            simp [safe_get_text_from_resp, hcand, htr]
          rw [this]
          exact hmem
      | true =>
        cases hpath : dictCandPath cands with
        | some t =>
          refine Or.inr ?_
          simp [safe_get_text_from_resp, fieldVals, hcand, htr, hpath]
        | none =>
          rcases hfb with ⟨s, hs⟩ | hmem
          · exact Or.inl ⟨s,
              by simpa [safe_get_text_from_resp, hcand, htr, hpath] using hs⟩
          · refine Or.inr ?_
            have : safe_get_text_from_resp (.vdict es) =
                pyOr ((List.lookup "text" es).getD .vnone)
                  (pyOr ((List.lookup "delta" es).getD .vnone) (.vstr "")) := by
              simp [safe_get_text_from_resp, hcand, htr, hpath]
            rw [this]
            exact hmem

theorem intercalate_go_sepPre (s : String) (as : List String) (acc : String) :
    String.intercalate.go acc s as = acc ++ sepPre s as := by
  induction as generalizing acc with
  | nil => simp [String.intercalate.go, sepPre]
  | cons a t ih =>
    simp [String.intercalate.go, sepPre, ih, String.append_assoc]

theorem toText_cons_sepPre (ms : List SpecMessage) (m : SpecMessage) :
    toText (m :: ms) = fmtLine m ++ sepPre "\n\n" (ms.map fmtLine) := by
  induction ms generalizing m with
  | nil => simp [toText, sepPre]
  | cons m2 t ih =>
    simp [toText, sepPre, ih, String.append_assoc]

/-- Claim C9: the TXT export renders one formatted line per message joined by
blank lines in history order, and the JSON export is an order-preserving array
of role, text and time string fields recovering the history exactly (non-ASCII
text is stored unchanged); both are plain functions of the history, hence pure
and deterministic.  The ExportSerializer is absent from the repository source,
so toText and toJson are modelled from the spec. -/
theorem C9_export_serializer (h : List SpecMessage) :
    toText h = String.intercalate "\n\n" (h.map fmtLine) ∧
    (toJson h).map (fun o => (List.lookup "role" o, List.lookup "text" o,
      List.lookup "time" o)) =
      h.map (fun m => (some m.role, some m.text, some m.time)) := by
  constructor
  · cases h with
    | nil => rfl
    | cons m ms =>
      rw [toText_cons_sepPre]
      simp [String.intercalate, intercalate_go_sepPre]
  · rw [toJson, List.map_map]
    rfl

/-- Witness for the amended C2, instantiating both conjuncts. -/
theorem C2_fallback_behaviour_witness :
    (handle ⟨true, "y", true, false, true⟩ ⟨.raises, none⟩
        (.ok (.vobj [("text", .vstr " hi there ")])) []).2.blockingCalls = 1 ∧
    (handle ⟨true, "y", true, false, true⟩ ⟨.raises, none⟩
        (.ok (.vobj [("text", .vstr " hi there ")])) []).1 =
      [mkMsg "user" "y", mkMsg "assistant" "hi there"] ∧
    (handle ⟨true, "x", true, true, true⟩ ⟨.raises, none⟩
        (.ok (.vstr "ok")) []).2.blockingCalls = 0 := by
  refine ⟨?_, ?_, ?_⟩
  · exact ((C2_fallback_behaviour ⟨true, "y", true, false, true⟩
      ⟨.raises, none⟩ (.ok (.vobj [("text", .vstr " hi there ")])) [] rfl
      (by decide) rfl).1 (Or.inl rfl)).1
  · have h := ((C2_fallback_behaviour ⟨true, "y", true, false, true⟩
      ⟨.raises, none⟩ (.ok (.vobj [("text", .vstr " hi there ")])) [] rfl
      (by decide) rfl).1 (Or.inl rfl)).2.2.2
      (.vobj [("text", .vstr " hi there ")]) " hi there " rfl rfl
    simpa using h
  · exact ((C2_fallback_behaviour ⟨true, "x", true, true, true⟩
      ⟨.raises, none⟩ (.ok (.vstr "ok")) [] rfl (by decide) rfl).2
      rfl rfl rfl).1

end CoolLion
